import Mathlib

/-!
Verification development for the ai-coin-agg repository.

Shallow embedding conventions:
- Python floats are modelled as exact decimals: `ℚ` where the code only moves
  or compares values, `ℝ` where it applies `math.log` (natural logarithm).
- Python `dict.get(key, default)` on records whose key set is fixed by the
  code is modelled with typed structures; a key that may be absent or hold
  `None` becomes an `Option` field (for raw inputs, a dedicated inductive
  distinguishes present/convertible, present/unconvertible, and
  missing-or-None where the code distinguishes them).
- `datetime.now(...)` and `random.uniform(0, 1)` are impure inputs of the
  code; they are passed as explicit parameters (`timestamp`, `jitter`).
- `round(x, n)` is modelled as `round (x * 10 ^ n) / 10 ^ n`; Mathlib
  `round` rounds half upward while Python rounds half to even, which differ
  only at exact ties, none of which occur in the statements below.
-/

/-! ## Scorer embedding (src/src/processors/scorer.py) -/

/-- METRIC_WEIGHTS of scorer.py lines 9-17, in insertion order. -/
def METRIC_WEIGHTS : List (String × ℚ) :=
  [("volume", 0.20),
   ("market_cap", 0.20),
   ("active_addresses", 0.20),
   ("etherscan_transaction_count_proxy", 0.10),
   ("sentiment_score", 0.20),
   ("gdelt_sentiment_score", 0.10)]

/-- VOLUME_MOMENTUM_WEIGHT of scorer.py line 20. -/
def VOLUME_MOMENTUM_WEIGHT : ℚ := 0.0

/-- scorer.py lines 22-31: sentiment multiplier from total mentions
(a Python int, hence `ℤ`). -/
def _calculate_mention_multiplier (total_mentions : ℤ) : ℚ :=
  if total_mentions < 100 then 0.8
  else if total_mentions < 1000 then 1.0
  else if total_mentions < 10000 then 1.2
  else 1.5

/-- scorer.py lines 33-50: per-metric value transform. The `value is None`
branch (lines 35-36) is unreachable for cleaned records, whose numeric
fields are never null; the model takes the numeric value directly. -/
noncomputable def _transform_value (metric_name : String) (value : ℝ) : ℝ :=
  if metric_name ∈ ["volume", "market_cap", "active_addresses",
      "etherscan_transaction_count_proxy"] then
    Real.log (1 + value)
  else if metric_name = "sentiment_score" then
    (value + 1) / 2
  else if metric_name = "gdelt_sentiment_score" then
    max 0 (min ((value + 10) / 20) 1)
  else
    value

/-- Python `round(x, n)` on a real value. -/
noncomputable def roundR (n : ℕ) (x : ℝ) : ℝ :=
  ((round (x * 10 ^ n) : ℤ) : ℝ) / 10 ^ n

/-- Python `round(x, n)` on a rational value. -/
def roundRat (n : ℕ) (x : ℚ) : ℚ :=
  ((round (x * 10 ^ n) : ℤ) : ℚ) / 10 ^ n

/-- A record as produced by clean_coin_data (data_cleaner.py lines 17-77)
and consumed by calculate_coin_score. `coingecko_id` is carried over
unconditionally and may be null; `symbol` is null exactly when the raw
record held an explicit null symbol. -/
structure CleanedRecord where
  coingecko_id : Option String
  symbol : Option String
  price : ℚ
  volume : ℚ
  market_cap : ℚ
  active_addresses : ℤ
  transaction_volume_usd : ℚ
  etherscan_active_addresses_proxy : ℤ
  etherscan_transaction_count_proxy : ℤ
  etherscan_total_supply_adjusted : ℚ
  mentions : ℤ
  sentiment_score : ℚ
  gdelt_sentiment_score : ℚ
  gdelt_article_count : ℤ
  cleaned_at_utc : String
  collection_errors : Option (List String)
  deriving DecidableEq, Repr

/-- scorer.py line 79, `cleaned_data.get(metric, 0.0)` for each weighted
metric name; any other name defaults to 0.0. -/
def CleanedRecord.metricValue (r : CleanedRecord) (name : String) : ℚ :=
  if name = "volume" then r.volume
  else if name = "market_cap" then r.market_cap
  else if name = "active_addresses" then (r.active_addresses : ℚ)
  else if name = "etherscan_transaction_count_proxy" then
    (r.etherscan_transaction_count_proxy : ℚ)
  else if name = "sentiment_score" then r.sentiment_score
  else if name = "gdelt_sentiment_score" then r.gdelt_sentiment_score
  else 0.0

/-- One entry of contributing_metrics (scorer.py lines 88-103): sentiment
metrics record the mention multiplier and effective weight, the rest a plain
weight. -/
inductive MetricAttribution where
  | weighted (original_value : ℚ) (transformed_value : ℝ)
      (weight : ℚ) (contribution : ℝ)
  | sentimentWeighted (original_value : ℚ) (transformed_value : ℝ)
      (base_weight : ℚ) (mention_multiplier_applied : ℚ)
      (effective_weight : ℚ) (contribution : ℝ)

/-- contributing_metrics["mention_analysis"] (scorer.py lines 71-76). -/
structure MentionAnalysis where
  cp_mentions : ℤ
  gdelt_article_count : ℤ
  total_mentions : ℤ
  mention_multiplier_for_sentiment : ℚ
  deriving DecidableEq, Repr

/-- contributing_metrics["volume_momentum"] (scorer.py lines 114-118). -/
structure VolumeMomentumInfo where
  status : String
  current_contribution : ℝ
  weight_to_be_assigned : ℚ

/-- The dictionary returned by calculate_coin_score (scorer.py lines
139-148). -/
structure ScoreResult where
  coingecko_id : Option String
  symbol : Option String
  score : ℝ
  raw_weighted_score : ℝ
  mention_multiplier_applied_to_sentiment : ℚ
  scaling_factor_applied : ℚ
  mention_analysis : MentionAnalysis
  metric_attributions : List (String × MetricAttribution)
  volume_momentum : VolumeMomentumInfo
  score_calculation_timestamp_utc : String

/-- Body of the per-metric loop of scorer.py lines 78-104: the unrounded
contribution added to the raw weighted score, paired with the attribution
entry stored for the metric. -/
noncomputable def scoreEntry (r : CleanedRecord) (mention_multiplier : ℚ)
    (name : String) (weight : ℚ) : ℝ × MetricAttribution :=
  let value := r.metricValue name
  let transformed := _transform_value name (value : ℝ)
  if name = "sentiment_score" ∨ name = "gdelt_sentiment_score" then
    let contribution := (weight : ℝ) * (mention_multiplier : ℝ) * transformed
    (contribution,
      .sentimentWeighted value (roundR 4 transformed) weight mention_multiplier
        (roundRat 4 (weight * mention_multiplier)) (roundR 4 contribution))
  else
    let contribution := (weight : ℝ) * transformed
    (contribution, .weighted value (roundR 4 transformed) weight
      (roundR 4 contribution))

/-- The pre-scaling raw weighted score accumulated by scorer.py line 104. -/
noncomputable def rawWeightedScore (r : CleanedRecord) : ℝ :=
  (METRIC_WEIGHTS.map (fun p =>
    (scoreEntry r (_calculate_mention_multiplier
      (r.mentions + r.gdelt_article_count)) p.1 p.2).1)).sum

/-- scorer.py lines 52-148, calculate_coin_score. The wall-clock timestamp
(line 60) is the one impure input and is passed explicitly. For a cleaned
record the "symbol" key is always present, so `.get("symbol", "UNKNOWN")`
on line 58 returns the stored (possibly null) symbol. -/
noncomputable def calculate_coin_score (cleaned_data : CleanedRecord)
    (timestamp : String) : ScoreResult :=
  let cp_mentions := cleaned_data.mentions
  let gdelt_articles := cleaned_data.gdelt_article_count
  let total_mentions := cp_mentions + gdelt_articles
  let mention_multiplier := _calculate_mention_multiplier total_mentions
  let entries := METRIC_WEIGHTS.map (fun p =>
    (p.1, scoreEntry cleaned_data mention_multiplier p.1 p.2))
  let raw_weighted_score := (entries.map (fun e => e.2.1)).sum
  let scaling_factor : ℚ := 7.0
  let final_score := raw_weighted_score * (scaling_factor : ℝ)
  let final_score_clamped := max 0 (min final_score 100)
  { coingecko_id := cleaned_data.coingecko_id
    symbol := cleaned_data.symbol
    score := roundR 2 final_score_clamped
    raw_weighted_score := roundR 4 raw_weighted_score
    mention_multiplier_applied_to_sentiment := mention_multiplier
    scaling_factor_applied := scaling_factor
    mention_analysis :=
      ⟨cp_mentions, gdelt_articles, total_mentions, mention_multiplier⟩
    metric_attributions := entries.map (fun e => (e.1, e.2.2))
    volume_momentum :=
      ⟨"Placeholder - Full implementation requires historical volume data.",
        0.0, VOLUME_MOMENTUM_WEIGHT⟩
    score_calculation_timestamp_utc := timestamp }

/-! ## Data cleaner embedding (src/src/processors/data_cleaner.py) -/

/-- State of one numeric field of the raw dictionary, as seen by the
cleaning loop of data_cleaner.py lines 55-67. `raw_data.get(field)` returns
None both for a missing key and for an explicit null, so the two are one
constructor. `val a` is a present value that `type_constructor` converts to
`a`; `bad shown` is a present value on which the conversion raises
ValueError or TypeError, carrying its printed form. -/
inductive RawVal (α : Type) where
  | missingOrNone
  | val (a : α)
  | bad (shown : String)
  deriving DecidableEq, Repr

/-- State of the "symbol" key of a raw dictionary. `raw_data.get("symbol",
"UNKNOWN")` (line 20) distinguishes a missing key (default used) from an
explicit null (None returned). -/
inductive RawSymbol where
  | missing
  | null
  | val (s : String)
  deriving DecidableEq, Repr

/-- The raw per-coin dictionary handed to clean_coin_data, restricted to the
keys the cleaner reads. -/
structure RawCoinData where
  coingecko_id : Option String
  symbol : RawSymbol
  price : RawVal ℚ
  volume : RawVal ℚ
  market_cap : RawVal ℚ
  active_addresses : RawVal ℤ
  transaction_volume_usd : RawVal ℚ
  etherscan_active_addresses_proxy : RawVal ℤ
  etherscan_transaction_count_proxy : RawVal ℤ
  etherscan_total_supply_adjusted : RawVal ℚ
  mentions : RawVal ℤ
  sentiment_score : RawVal ℚ
  gdelt_sentiment_score : RawVal ℚ
  gdelt_article_count : RawVal ℤ
  collection_errors : Option (List String)
  deriving DecidableEq, Repr

/-- A processing note of data_cleaner.py lines 61 and 67, kept structured:
the conversion-failure and missing-or-None f-strings keyed by field name. -/
inductive CleaningNote where
  | conversionFailed (field : String) (shown : String) (defaultShown : String)
  | missingOrNone (field : String) (defaultShown : String)
  deriving DecidableEq, Repr

/-- Loop body of data_cleaner.py lines 55-67 for one field definition:
the cleaned value and the notes it appends. -/
def cleanField {α : Type} (name : String) (defaultShown : String)
    (default : α) : RawVal α → α × List CleaningNote
  | .val a => (a, [])
  | .bad shown => (default, [.conversionFailed name shown defaultShown])
  | .missingOrNone => (default, [.missingOrNone name defaultShown])

/-- Result of clean_coin_data: the CleanedRecord fed to the scorer, plus the
structured processing notes (the "processing_notes" key is present exactly
when the note list is nonempty, so the list itself carries the same
information). -/
structure CleanedOutput where
  record : CleanedRecord
  notes : List CleaningNote
  deriving Repr

/-- data_cleaner.py lines 4-77, clean_coin_data. The wall-clock timestamp of
line 33 is passed explicitly as `now`. Fields are processed in the order of
field_definitions (lines 40-53), and notes are collected in that order. The
model stores the structured notes beside the record; the string list inside
CleanedRecord is left empty since the notes list is its one source. -/
def clean_coin_data (raw_data : RawCoinData) (now : String) : CleanedOutput :=
  let price := cleanField "price" "0.0" (0 : ℚ) raw_data.price
  let volume := cleanField "volume" "0.0" (0 : ℚ) raw_data.volume
  let market_cap := cleanField "market_cap" "0.0" (0 : ℚ) raw_data.market_cap
  let active_addresses :=
    cleanField "active_addresses" "0" (0 : ℤ) raw_data.active_addresses
  let transaction_volume_usd :=
    cleanField "transaction_volume_usd" "0.0" (0 : ℚ)
      raw_data.transaction_volume_usd
  let etherscan_active_addresses_proxy :=
    cleanField "etherscan_active_addresses_proxy" "0" (0 : ℤ)
      raw_data.etherscan_active_addresses_proxy
  let etherscan_transaction_count_proxy :=
    cleanField "etherscan_transaction_count_proxy" "0" (0 : ℤ)
      raw_data.etherscan_transaction_count_proxy
  let etherscan_total_supply_adjusted :=
    cleanField "etherscan_total_supply_adjusted" "0.0" (0 : ℚ)
      raw_data.etherscan_total_supply_adjusted
  let mentions := cleanField "mentions" "0" (0 : ℤ) raw_data.mentions
  let sentiment_score :=
    cleanField "sentiment_score" "0.0" (0 : ℚ) raw_data.sentiment_score
  let gdelt_sentiment_score :=
    cleanField "gdelt_sentiment_score" "0.0" (0 : ℚ)
      raw_data.gdelt_sentiment_score
  let gdelt_article_count :=
    cleanField "gdelt_article_count" "0" (0 : ℤ) raw_data.gdelt_article_count
  { record :=
      { coingecko_id := raw_data.coingecko_id
        symbol :=
          match raw_data.symbol with
          | .missing => some "UNKNOWN"
          | .null => none
          | .val s => some s
        price := price.1
        volume := volume.1
        market_cap := market_cap.1
        active_addresses := active_addresses.1
        transaction_volume_usd := transaction_volume_usd.1
        etherscan_active_addresses_proxy := etherscan_active_addresses_proxy.1
        etherscan_transaction_count_proxy :=
          etherscan_transaction_count_proxy.1
        etherscan_total_supply_adjusted := etherscan_total_supply_adjusted.1
        mentions := mentions.1
        sentiment_score := sentiment_score.1
        gdelt_sentiment_score := gdelt_sentiment_score.1
        gdelt_article_count := gdelt_article_count.1
        cleaned_at_utc := now
        collection_errors := raw_data.collection_errors }
    notes :=
      price.2 ++ volume.2 ++ market_cap.2 ++ active_addresses.2 ++
      transaction_volume_usd.2 ++ etherscan_active_addresses_proxy.2 ++
      etherscan_transaction_count_proxy.2 ++
      etherscan_total_supply_adjusted.2 ++ mentions.2 ++
      sentiment_score.2 ++ gdelt_sentiment_score.2 ++ gdelt_article_count.2 }

/-- 1 when a numeric raw field is defaulted by the cleaning loop (missing,
null or unconvertible), 0 when its converted value is kept. -/
def RawVal.defaulted {α : Type} : RawVal α → ℕ
  | .val _ => 0
  | _ => 1

/-- Number of numeric fields of a raw record that the cleaning loop
defaults, one per field definition. -/
def defaultedFieldCount (raw : RawCoinData) : ℕ :=
  raw.price.defaulted + raw.volume.defaulted + raw.market_cap.defaulted +
  raw.active_addresses.defaulted + raw.transaction_volume_usd.defaulted +
  raw.etherscan_active_addresses_proxy.defaulted +
  raw.etherscan_transaction_count_proxy.defaulted +
  raw.etherscan_total_supply_adjusted.defaulted + raw.mentions.defaulted +
  raw.sentiment_score.defaulted + raw.gdelt_sentiment_score.defaulted +
  raw.gdelt_article_count.defaulted

/-- A raw record in which every field is null. -/
def allNullRaw : RawCoinData :=
  { coingecko_id := none
    symbol := .null
    price := .missingOrNone
    volume := .missingOrNone
    market_cap := .missingOrNone
    active_addresses := .missingOrNone
    transaction_volume_usd := .missingOrNone
    etherscan_active_addresses_proxy := .missingOrNone
    etherscan_transaction_count_proxy := .missingOrNone
    etherscan_total_supply_adjusted := .missingOrNone
    mentions := .missingOrNone
    sentiment_score := .missingOrNone
    gdelt_sentiment_score := .missingOrNone
    gdelt_article_count := .missingOrNone
    collection_errors := none }

/-! ## CryptoPanic filter and sentiment aggregator
(src/src/collectors/social_data.py) -/

/-- A JSON value at a place where the code checks `isinstance(x, dict)`:
either not a dictionary, or a dictionary modelled by `α`. -/
inductive JsonItem (α : Type) where
  | notDict
  | dict (a : α)
  deriving DecidableEq, Repr

/-- One element of a post's "currencies" list: the code only reads
`currency_obj.get("code")` after an isinstance-dict check. -/
structure CPCurrency where
  code : Option String
  deriving DecidableEq, Repr

/-- The "votes" dictionary of a post: the code reads `positive` and
`negative` with default 0 (social_data.py lines 246-247). -/
structure CPVotes where
  positive : Option ℤ
  negative : Option ℤ
  deriving DecidableEq, Repr

/-- A CryptoPanic post dictionary, restricted to the keys read by the filter
and the aggregator. `currencies` is none when the key is missing, null or
not a list (the code treats the three alike); `votes` is none when missing
or null, and `JsonItem.notDict` when present but not a dictionary. -/
structure CPPost where
  title : Option String
  currencies : Option (List (JsonItem CPCurrency))
  votes : Option (JsonItem CPVotes)
  deriving DecidableEq, Repr

/-- The dictionary returned by fetch_cryptopanic_news_for_coin and fed to
filter_cryptopanic_posts: an optional "error" key, and optional
"coin_symbol"/"results" keys. -/
structure PostsData where
  error : Option String
  coin_symbol : Option String
  results : Option (List (JsonItem CPPost))
  deriving DecidableEq, Repr

/-- Python `str.upper()` on ASCII text, via the character list (Lean
`String.toUpper` computes the same map but through a non-structural
recursion the kernel cannot evaluate). -/
def pyUpper (s : String) : String := ⟨s.data.map Char.toUpper⟩

/-- Python `str.strip()`: drop leading and trailing whitespace. -/
def pyStrip (s : String) : String :=
  ⟨((s.data.dropWhile Char.isWhitespace).reverse.dropWhile
      Char.isWhitespace).reverse⟩

/-- Keep-condition of the filter loop (social_data.py lines 181-207): the
item is a dictionary, its title is present and nonempty after stripping
whitespace, and some element of its currencies list is a dictionary whose
code equals the uppercased target symbol. -/
def keepPost (target : String) : JsonItem CPPost → Bool
  | .notDict => false
  | .dict post =>
    match post.title with
    | none => false
    | some t =>
      if pyStrip t = "" then false
      else
        match post.currencies with
        | none => false
        | some curs =>
          curs.any fun c =>
            match c with
            | .dict cobj => cobj.code = some (pyUpper target)
            | .notDict => false

/-- The four return shapes of filter_cryptopanic_posts: the error
passthrough of line 168, the invalid-input error of line 174, the mismatch
error of line 178, and the filtered result of line 209. -/
inductive FilterResult where
  | passthrough (d : PostsData)
  | invalidInput (coin_symbol : String)
  | mismatch (coin_symbol : String) (original : String)
  | filtered (coin_symbol : String)
      (filtered_results : List (JsonItem CPPost))
  deriving DecidableEq, Repr

/-- social_data.py lines 153-209, filter_cryptopanic_posts. -/
def filter_cryptopanic_posts (posts_data : PostsData)
    (coin_symbol_to_filter : String) : FilterResult :=
  if posts_data.error.isSome then .passthrough posts_data
  else
    match posts_data.results, posts_data.coin_symbol with
    | some raw_posts, some original =>
      if pyUpper original ≠ pyUpper coin_symbol_to_filter then
        .mismatch coin_symbol_to_filter original
      else
        .filtered coin_symbol_to_filter
          (raw_posts.filter (keepPost coin_symbol_to_filter))
    | _, _ => .invalidInput coin_symbol_to_filter

/-- The dictionary fed to calculate_aggregate_sentiment_from_posts. -/
structure FilteredPostsData where
  error : Option String
  coin_symbol : Option String
  filtered_results : Option (List (JsonItem CPPost))
  deriving DecidableEq, Repr

/-- Per-post sentiment of the aggregation loop (social_data.py lines
241-254): some score exactly when the item is a dictionary whose votes
value is a dictionary and positive or negative (defaulting to 0) is
positive; the score is (positive - negative) / (positive + negative + 1)
in float, here exact rational, arithmetic. -/
def postSentiment : JsonItem CPPost → Option ℚ
  | .notDict => none
  | .dict post =>
    match post.votes with
    | some (.dict v) =>
      let positive_votes := v.positive.getD 0
      let negative_votes := v.negative.getD 0
      if 0 < positive_votes ∨ 0 < negative_votes then
        some (((positive_votes : ℚ) - negative_votes) /
          ((positive_votes : ℚ) + negative_votes + 1))
      else none
    | _ => none

/-- The return shapes of calculate_aggregate_sentiment_from_posts: the error
passthrough of line 227, the invalid-input error of line 233 (the
not-a-list error of line 236 cannot arise in the typed model, where
filtered_results is a list whenever present), and the result dictionary of
lines 260-265. -/
inductive AggResult where
  | passthrough (d : FilteredPostsData)
  | invalidInput (coin_symbol : Option String)
  | result (coin_symbol : String) (aggregated_sentiment_score : ℚ)
      (articles_processed_for_sentiment : ℕ) (articles_with_votes : ℕ)
  deriving DecidableEq, Repr

/-- social_data.py lines 211-265, calculate_aggregate_sentiment_from_posts.
Both the append to individual_sentiments and the articles_with_votes
increment sit under the same guard, so the count is the length of the
collected list. -/
def calculate_aggregate_sentiment_from_posts (d : FilteredPostsData) :
    AggResult :=
  if d.error.isSome then .passthrough d
  else
    match d.coin_symbol, d.filtered_results with
    | some coin_symbol, some posts =>
      let individual_sentiments := posts.filterMap postSentiment
      let articles_with_votes := individual_sentiments.length
      let aggregated_score : ℚ :=
        if individual_sentiments.isEmpty then 0.0
        else individual_sentiments.sum / (individual_sentiments.length : ℚ)
      .result coin_symbol (roundRat 4 aggregated_score) posts.length
        articles_with_votes
    | _, _ => .invalidInput d.coin_symbol

/-! ## Resilient fetch embedding
(src/src/collectors/coin_data.py, fetch_coingecko_market_data;
src/src/collectors/social_data.py, fetch_gdelt_doc_api_news_sentiment)

Each loop iteration performs one HTTP attempt whose result is an impure
input; a run is therefore parameterised by the per-attempt responses
(`responses : ℕ → ...`) and the per-attempt backoff jitter drawn by
`random.uniform(0, 1)` (`jitter : ℕ → ℝ`). A run records the typed outcome,
the number of attempts consumed and the backoff delays slept, in order. -/

/-- One CoinGecko market entry of the parsed JSON list: the code reads id,
current_price, total_volume, market_cap with `.get` (coin_data.py lines
59-64). -/
structure CGEntry where
  id : Option String
  current_price : Option ℚ
  total_volume : Option ℚ
  market_cap : Option ℚ
  deriving DecidableEq, Repr

/-- The successful payload of fetch_coingecko_market_data. -/
structure CGMarketData where
  id : Option String
  price : Option ℚ
  volume : Option ℚ
  market_cap : Option ℚ
  deriving DecidableEq, Repr

/-- Result of one HTTP attempt of fetch_coingecko_market_data:
a 2xx response with a parsed JSON list; a RequestException carrying a
response with a status code (raise_for_status on 4xx/5xx); a
RequestException with no response (connection failure, timeout); a
JSONDecodeError; or any other exception (the catch-all of line 85, which
also covers the IndexError/KeyError handler of line 79, unreachable with
`.get` access). -/
inductive CGResponse where
  | ok (data : List CGEntry)
  | httpErr (status : ℕ) (msg : String)
  | connErr (msg : String)
  | badJson (msg : String)
  | otherExc (msg : String)
  deriving DecidableEq, Repr

/-- The distinct failure returns of fetch_coingecko_market_data, one
constructor per `return {"error": ...}` site: no data for the coin id (line
66), rate-limit retries exhausted (line 76), other request failure (line
78), JSON decoding failure (line 84), unexpected exception (line 87), and
the fall-through after the loop (line 89, unreachable). Each carries the
interpolated exception text. -/
inductive CGError where
  | noData
  | rateLimited (msg : String)
  | request (msg : String)
  | jsonDecode (msg : String)
  | unexpected (msg : String)
  | fallthrough
  deriving DecidableEq, Repr

/-- A finished fetch run: typed outcome, attempts consumed, backoff delays
slept in order. -/
structure FetchRun (ε α : Type) where
  outcome : Except ε α
  attempts : ℕ
  delays : List ℝ

/-- coin_data.py line 48. -/
def cg_max_retries : ℕ := 5

/-- coin_data.py line 49. -/
def cg_base_delay : ℝ := 2

/-- The retry loop of fetch_coingecko_market_data (coin_data.py lines
51-89). `fuel` is the number of loop iterations left (`range(max_retries)`),
`attempt` the current zero-indexed attempt. On 429 with a later attempt
available, the loop sleeps `base_delay * 2 ** attempt + uniform(0, 1)` and
retries; every other result returns at once. -/
def cgLoop (responses : ℕ → CGResponse) (jitter : ℕ → ℝ) :
    ℕ → ℕ → List ℝ → FetchRun CGError CGMarketData
  | 0, attempt, delays => ⟨.error .fallthrough, attempt, delays⟩
  | fuel + 1, attempt, delays =>
    match responses attempt with
    | .ok [] => ⟨.error .noData, attempt + 1, delays⟩
    | .ok (coin_data :: _) =>
      ⟨.ok ⟨coin_data.id, coin_data.current_price, coin_data.total_volume,
        coin_data.market_cap⟩, attempt + 1, delays⟩
    | .httpErr status msg =>
      if status = 429 then
        if attempt < cg_max_retries - 1 then
          cgLoop responses jitter fuel (attempt + 1)
            (delays ++ [cg_base_delay * 2 ^ attempt + jitter attempt])
        else ⟨.error (.rateLimited msg), attempt + 1, delays⟩
      else ⟨.error (.request msg), attempt + 1, delays⟩
    | .connErr msg => ⟨.error (.request msg), attempt + 1, delays⟩
    | .badJson msg => ⟨.error (.jsonDecode msg), attempt + 1, delays⟩
    | .otherExc msg => ⟨.error (.unexpected msg), attempt + 1, delays⟩

/-- coin_data.py lines 25-89, fetch_coingecko_market_data, as a run over
the attempt responses and jitter draws. -/
def fetch_coingecko_market_data (responses : ℕ → CGResponse)
    (jitter : ℕ → ℝ) : FetchRun CGError CGMarketData :=
  cgLoop responses jitter cg_max_retries 0 []

/-- A raw GDELT article of the parsed JSON (social_data.py lines 323-345):
the string fields read with `.get`, the raw tone string (`.get("tone", "")`
folds a missing tone into the empty string), and the result of
`float(raw_tone_str.split(",")[0])` as an oracle for Python float parsing,
none when that conversion raises. -/
structure GArticleRaw where
  title : Option String
  url : Option String
  source : Option String
  domain : Option String
  seendate : Option String
  tone_raw : String
  tone_val : Option ℚ
  deriving DecidableEq, Repr

/-- social_data.py lines 327-335: the extracted tone of one article; the
parse is only attempted when the raw tone string is nonempty. -/
def gExtractTone (a : GArticleRaw) : Option ℚ :=
  if a.tone_raw = "" then none else a.tone_val

/-- One processed article of the GDELT payload (social_data.py lines
337-345). -/
structure GProcessedArticle where
  title : Option String
  url : Option String
  source : Option String
  domain : Option String
  seendate : Option String
  tone_raw : String
  tone_extracted : Option ℚ
  deriving DecidableEq, Repr

/-- The successful payload of fetch_gdelt_doc_api_news_sentiment
(social_data.py lines 349-354). -/
structure GPayload where
  query : String
  gdelt_average_tone : ℚ
  gdelt_article_count : ℕ
  articles : List GProcessedArticle
  deriving DecidableEq, Repr

/-- Result of one HTTP attempt of fetch_gdelt_doc_api_news_sentiment,
mirroring CGResponse; the parsed article list may contain non-dictionary
items, which the processing loop skips. -/
inductive GResponse where
  | ok (articles : List (JsonItem GArticleRaw))
  | httpErr (status : ℕ) (msg : String)
  | connErr (msg : String)
  | badJson (msg : String)
  | otherExc (msg : String)
  deriving DecidableEq, Repr

/-- The distinct failure returns of fetch_gdelt_doc_api_news_sentiment, one
constructor per `return {..., "error": ...}` site: rate-limit retries
exhausted (line 365), other request failure (line 368), JSON decoding
failure (line 370), unexpected exception (line 373), and the fall-through
after the loop (line 376, unreachable). -/
inductive GError where
  | rateLimited (msg : String)
  | request (msg : String)
  | jsonDecode (msg : String)
  | unexpected (msg : String)
  | fallthrough
  deriving DecidableEq, Repr

/-- social_data.py line 309. -/
def g_max_retries : ℕ := 5

/-- social_data.py line 310. -/
def g_base_delay : ℝ := 1

/-- Success-path processing of social_data.py lines 319-354: skip non-dict
items, extract tones, average the successfully parsed tones (0.0 when there
are none) and round to 4 decimals. -/
def gProcessPayload (query : String)
    (articles_data : List (JsonItem GArticleRaw)) : GPayload :=
  let processed := (articles_data.filterMap fun item =>
    match item with
    | .notDict => none
    | .dict a => some a).map fun a =>
      GProcessedArticle.mk a.title a.url a.source a.domain a.seendate
        a.tone_raw (gExtractTone a)
  let tone_scores := processed.filterMap (fun a => a.tone_extracted)
  let average_tone : ℚ :=
    if tone_scores.isEmpty then 0.0
    else tone_scores.sum / (tone_scores.length : ℚ)
  ⟨query, roundRat 4 average_tone, processed.length, processed⟩

/-- The retry loop of fetch_gdelt_doc_api_news_sentiment (social_data.py
lines 312-376), parameterised like cgLoop. -/
def gLoop (query : String) (responses : ℕ → GResponse) (jitter : ℕ → ℝ) :
    ℕ → ℕ → List ℝ → FetchRun GError GPayload
  | 0, attempt, delays => ⟨.error .fallthrough, attempt, delays⟩
  | fuel + 1, attempt, delays =>
    match responses attempt with
    | .ok articles_data =>
      ⟨.ok (gProcessPayload query articles_data), attempt + 1, delays⟩
    | .httpErr status msg =>
      if status = 429 then
        if attempt < g_max_retries - 1 then
          gLoop query responses jitter fuel (attempt + 1)
            (delays ++ [g_base_delay * 2 ^ attempt + jitter attempt])
        else ⟨.error (.rateLimited msg), attempt + 1, delays⟩
      else ⟨.error (.request msg), attempt + 1, delays⟩
    | .connErr msg => ⟨.error (.request msg), attempt + 1, delays⟩
    | .badJson msg => ⟨.error (.jsonDecode msg), attempt + 1, delays⟩
    | .otherExc msg => ⟨.error (.unexpected msg), attempt + 1, delays⟩

/-- social_data.py lines 279-376, fetch_gdelt_doc_api_news_sentiment, as a
run over the attempt responses and jitter draws. -/
def fetch_gdelt_doc_api_news_sentiment (query : String)
    (responses : ℕ → GResponse) (jitter : ℕ → ℝ) :
    FetchRun GError GPayload :=
  gLoop query responses jitter g_max_retries 0 []

/-- An attempt response that the retry policy retries: an HTTP 429. -/
def CGResponse.is429 : CGResponse → Prop
  | .httpErr status _ => status = 429
  | _ => False

/-- An attempt response that the retry policy retries: an HTTP 429. -/
def GResponse.is429 : GResponse → Prop
  | .httpErr status _ => status = 429
  | _ => False

/-! ## Concrete inputs used in counterexamples and witnesses -/

/-- A cleaned record with every metric zero except a CryptoPanic sentiment
of 0.1. -/
def sentimentOnlyRecord : CleanedRecord :=
  { coingecko_id := none
    symbol := some "SYM"
    price := 0
    volume := 0
    market_cap := 0
    active_addresses := 0
    transaction_volume_usd := 0
    etherscan_active_addresses_proxy := 0
    etherscan_transaction_count_proxy := 0
    etherscan_total_supply_adjusted := 0
    mentions := 0
    sentiment_score := 0.1
    gdelt_sentiment_score := 0
    gdelt_article_count := 0
    cleaned_at_utc := "t"
    collection_errors := none }

/-- Attempt responses that are HTTP 429 on every attempt. -/
def all429CG : ℕ → CGResponse := fun _ => .httpErr 429 "rate limited"

/-- Attempt responses that are HTTP 429 on every attempt. -/
def all429G : ℕ → GResponse := fun _ => .httpErr 429 "rate limited"

/-- Zero jitter on every backoff. -/
def zeroJitter : ℕ → ℝ := fun _ => 0

/-- Attempt responses: HTTP 429 on attempts 0-3, success on attempt 4. -/
def cgFourThenOk : ℕ → CGResponse := fun attempt =>
  if attempt < 4 then .httpErr 429 "rate limited"
  else .ok [⟨some "bitcoin", some 60000, some 1000, some 5000⟩]

/-- Attempt responses: HTTP 500 on the first attempt. -/
def cgFirst500 : ℕ → CGResponse := fun _ => .httpErr 500 "server error"

/-- Attempt responses: HTTP 500 on the first attempt. -/
def gFirst500 : ℕ → GResponse := fun _ => .httpErr 500 "server error"

/-- Attempt responses: HTTP 429 on attempts 0-3, success with no articles
on attempt 4. -/
def gFourThenOk : ℕ → GResponse := fun attempt =>
  if attempt < 4 then .httpErr 429 "rate limited" else .ok []

/-- A CryptoPanic post whose title is a single space (non-empty but blank)
and whose currencies list tags BTC. -/
def blankTitlePost : CPPost :=
  { title := some " "
    currencies := some [.dict ⟨some "BTC"⟩]
    votes := none }

/-- The worked sentiment batch of the spec: votes (10, 2), (5, 5), (1, 8). -/
def exampleVotesPosts : List (JsonItem CPPost) :=
  [.dict ⟨some "a", none, some (.dict ⟨some 10, some 2⟩)⟩,
   .dict ⟨some "b", none, some (.dict ⟨some 5, some 5⟩)⟩,
   .dict ⟨some "c", none, some (.dict ⟨some 1, some 8⟩)⟩]

/-- The filter keep-condition as claim C9 words it, with the one amendment
the code forces on the title (nonempty after stripping whitespace rather
than merely nonempty): the item is a post dictionary whose title has
non-whitespace content and whose explicit currency-tag list contains a
dictionary entry whose code is the uppercased target symbol. -/
def keepSpec (target : String) (item : JsonItem CPPost) : Prop :=
  ∃ post t curs cobj, item = JsonItem.dict post ∧ post.title = some t ∧
    pyStrip t ≠ "" ∧ post.currencies = some curs ∧
    JsonItem.dict cobj ∈ curs ∧ cobj.code = some (pyUpper target)

/-- A fetched batch holding exactly the blank-titled, BTC-tagged post. -/
def blankTitlePostsData : PostsData :=
  { error := none
    coin_symbol := some "BTC"
    results := some [.dict blankTitlePost] }

/-- The worked sentiment batch wrapped as a filtered-posts dictionary. -/
def exampleFilteredData : FilteredPostsData :=
  { error := none
    coin_symbol := some "TESTCOIN1"
    filtered_results := some exampleVotesPosts }

/-- An empty filtered batch. -/
def emptyFilteredData : FilteredPostsData :=
  { error := none
    coin_symbol := some "TESTCOIN3"
    filtered_results := some [] }

/-- A raw record that carries an explicit null symbol but ordinary values
elsewhere. -/
def nullSymbolRaw : RawCoinData :=
  { coingecko_id := some "bitcoin"
    symbol := .null
    price := .val 60000
    volume := .val 1000
    market_cap := .val 5000
    active_addresses := .val 10
    transaction_volume_usd := .val 0
    etherscan_active_addresses_proxy := .val 0
    etherscan_transaction_count_proxy := .val 0
    etherscan_total_supply_adjusted := .val 0
    mentions := .val 5
    sentiment_score := .val 0.5
    gdelt_sentiment_score := .val 1
    gdelt_article_count := .val 2
    collection_errors := none }

/-! ## Helper lemmas -/

theorem round_le_round_of_le {x y : ℝ} (h : x ≤ y) : round x ≤ round y := by
  rw [round_eq, round_eq]
  exact Int.floor_mono (by linarith)

theorem roundR_nonneg {n : ℕ} {x : ℝ} (hx : 0 ≤ x) : 0 ≤ roundR n x := by
  unfold roundR
  have h : (0 : ℤ) ≤ round (x * 10 ^ n) := by
    have := round_le_round_of_le (x := 0) (y := x * 10 ^ n) (by positivity)
    simpa using this
  positivity

theorem roundR_le_of_le {n : ℕ} {x c : ℝ} (hx : x ≤ c) (z : ℤ)
    (hz : (z : ℝ) = c * 10 ^ n) : roundR n x ≤ c := by
  unfold roundR
  have h1 : round (x * 10 ^ n) ≤ z := by
    have h2 := round_le_round_of_le
      (mul_le_mul_of_nonneg_right hx (by positivity : (0 : ℝ) ≤ 10 ^ n))
    rwa [← hz, round_intCast] at h2
  rw [div_le_iff₀ (by positivity)]
  calc ((round (x * 10 ^ n) : ℤ) : ℝ) ≤ (z : ℝ) := by exact_mod_cast h1
    _ = c * 10 ^ n := hz

/-! ## Claim theorems -/

/-- C2: the mention multiplier is the step function with breakpoints 100,
1000, 10000 and values 0.8, 1.0, 1.2, 1.5; a boundary value falls into the
higher bucket; no other value is ever returned. -/
theorem mention_multiplier_step_function (n : ℤ) :
    (n < 100 → _calculate_mention_multiplier n = 0.8) ∧
    (100 ≤ n → n < 1000 → _calculate_mention_multiplier n = 1.0) ∧
    (1000 ≤ n → n < 10000 → _calculate_mention_multiplier n = 1.2) ∧
    (10000 ≤ n → _calculate_mention_multiplier n = 1.5) ∧
    (_calculate_mention_multiplier 100 = 1.0 ∧
     _calculate_mention_multiplier 1000 = 1.2 ∧
     _calculate_mention_multiplier 10000 = 1.5) ∧
    (_calculate_mention_multiplier n = 0.8 ∨
     _calculate_mention_multiplier n = 1.0 ∨
     _calculate_mention_multiplier n = 1.2 ∨
     _calculate_mention_multiplier n = 1.5) := by
  unfold _calculate_mention_multiplier
  refine ⟨?_, ?_, ?_, ?_, ⟨by norm_num, by norm_num, by norm_num⟩, ?_⟩ <;>
    intros <;> split_ifs <;> first | rfl | omega | tauto

/-- Witness for C2: the step function evaluated on a point of each bucket
and on each boundary. -/
theorem mention_multiplier_step_function_witness :
    _calculate_mention_multiplier 99 = 0.8 ∧
    _calculate_mention_multiplier 100 = 1.0 ∧
    _calculate_mention_multiplier 999 = 1.0 ∧
    _calculate_mention_multiplier 1000 = 1.2 ∧
    _calculate_mention_multiplier 9999 = 1.2 ∧
    _calculate_mention_multiplier 10000 = 1.5 :=
  ⟨(mention_multiplier_step_function 99).1 (by decide),
   (mention_multiplier_step_function 100).2.1 (by decide) (by decide),
   (mention_multiplier_step_function 999).2.1 (by decide) (by decide),
   (mention_multiplier_step_function 1000).2.2.1 (by decide) (by decide),
   (mention_multiplier_step_function 9999).2.2.1 (by decide) (by decide),
   (mention_multiplier_step_function 10000).2.2.2.1 (by decide)⟩

/-- C3: the value transform is the piecewise function of the spec: natural
log of (1 + v) for the four magnitude metrics, monotone on v >= 0 and zero
at zero; (v + 1) / 2 for CryptoPanic sentiment with -1, 0, 1 mapped to 0,
1/2, 1; (v + 10) / 20 clamped to [0, 1] for GDELT tone; identity for every
other metric name. -/
theorem transform_value_piecewise (name : String) (v w : ℝ) :
    (name ∈ ["volume", "market_cap", "active_addresses",
        "etherscan_transaction_count_proxy"] →
      _transform_value name v = Real.log (1 + v) ∧
      (0 ≤ v → v ≤ w → _transform_value name v ≤ _transform_value name w) ∧
      _transform_value name 0 = 0) ∧
    (_transform_value "sentiment_score" v = (v + 1) / 2 ∧
     _transform_value "sentiment_score" (-1) = 0 ∧
     _transform_value "sentiment_score" 0 = 1 / 2 ∧
     _transform_value "sentiment_score" 1 = 1) ∧
    (_transform_value "gdelt_sentiment_score" v =
        max 0 (min ((v + 10) / 20) 1) ∧
     0 ≤ _transform_value "gdelt_sentiment_score" v ∧
     _transform_value "gdelt_sentiment_score" v ≤ 1) ∧
    (name ∉ ["volume", "market_cap", "active_addresses",
        "etherscan_transaction_count_proxy", "sentiment_score",
        "gdelt_sentiment_score"] →
      _transform_value name v = v) := by
  refine ⟨fun hm => ⟨?_, ?_, ?_⟩, ⟨?_, ?_, ?_, ?_⟩, ⟨?_, ?_, ?_⟩, fun ho => ?_⟩
  · simp only [_transform_value, if_pos hm]
  · intro hv hvw
    simp only [_transform_value, if_pos hm]
    exact Real.log_le_log (by linarith) (by linarith)
  · simp only [_transform_value, if_pos hm]
    norm_num
  · simp [_transform_value]
  · simp [_transform_value]
  · simp [_transform_value]
  · simp [_transform_value]
  · simp [_transform_value]
  · simp only [_transform_value]
    norm_num
    exact le_max_left 0 _
  · simp only [_transform_value]
    norm_num
    exact max_le (by norm_num) (min_le_right _ _)
  · simp only [List.mem_cons, List.not_mem_nil, or_false] at ho
    push_neg at ho
    obtain ⟨h1, h2, h3, h4, h5, h6⟩ := ho
    simp [_transform_value, h1, h2, h3, h4, h5, h6]

/-- Witness for C3: the transform evaluated on concrete metric names and
values from each branch. -/
theorem transform_value_piecewise_witness :
    _transform_value "volume" 0 = Real.log (1 + 0) ∧
    _transform_value "volume" 0 ≤ _transform_value "volume" 5 ∧
    _transform_value "sentiment_score" (-1) = 0 ∧
    _transform_value "gdelt_sentiment_score" 2 =
      max 0 (min ((2 + 10) / 20) 1) ∧
    _transform_value "price" 42 = 42 :=
  ⟨((transform_value_piecewise "volume" 0 5).1 (by simp)).1,
   ((transform_value_piecewise "volume" 0 5).1 (by simp)).2.1
     (by norm_num) (by norm_num),
   (transform_value_piecewise "volume" (-1) 0).2.1.2.1,
   (transform_value_piecewise "volume" 2 0).2.2.1.1,
   (transform_value_piecewise "price" 42 0).2.2.2 (by simp)⟩

theorem score_eq_round_clamp (r : CleanedRecord) (ts : String) :
    (calculate_coin_score r ts).score =
      roundR 2 (max 0 (min (rawWeightedScore r * ((7.0 : ℚ) : ℝ)) 100)) := by
  have h : rawWeightedScore r =
      ((METRIC_WEIGHTS.map (fun p => (p.1, scoreEntry r
        (_calculate_mention_multiplier
          (r.mentions + r.gdelt_article_count)) p.1 p.2))).map
        (fun e => e.2.1)).sum := by
    rw [List.map_map]
    rfl
  rw [h]
  rfl

theorem rawWeightedScore_sentimentOnly :
    rawWeightedScore sentimentOnlyRecord = 0.128 := by
  simp only [rawWeightedScore, METRIC_WEIGHTS, sentimentOnlyRecord]
  simp [scoreEntry, CleanedRecord.metricValue, _transform_value,
    _calculate_mention_multiplier]
  norm_num [Real.log_one, min_def, max_def]

/-- C1 (amended): for every cleaned record, the returned score is
clamp(raw_weighted_score * scaling_constant, 0, 100) rounded to 2 decimal
places, and in particular always lies in [0, 100], no matter how large
volume, market cap or any other metric is. -/
theorem final_score_clamp_rounded_bounded (r : CleanedRecord) (ts : String) :
    (calculate_coin_score r ts).score =
      roundR 2 (max 0 (min (rawWeightedScore r * ((7.0 : ℚ) : ℝ)) 100)) ∧
    0 ≤ (calculate_coin_score r ts).score ∧
    (calculate_coin_score r ts).score ≤ 100 := by
  refine ⟨score_eq_round_clamp r ts, ?_, ?_⟩
  · rw [score_eq_round_clamp r ts]
    exact roundR_nonneg (le_max_left _ _)
  · rw [score_eq_round_clamp r ts]
    exact roundR_le_of_le
      (max_le (by norm_num) (min_le_of_right_le (by norm_num))) 10000
      (by norm_num)

/-- C1 counterexample: the returned score is the clamp rounded to 2
decimals, not the clamp itself: on a record whose only nonzero metric is a
CryptoPanic sentiment of 0.1, the clamped scaled raw score is 0.896 but the
function returns 0.9. -/
theorem final_score_not_exact_clamp :
    (calculate_coin_score sentimentOnlyRecord "t").score ≠
      max 0 (min (rawWeightedScore sentimentOnlyRecord * ((7.0 : ℚ) : ℝ))
        100) ∧
    (calculate_coin_score sentimentOnlyRecord "t").score = 0.9 ∧
    max 0 (min (rawWeightedScore sentimentOnlyRecord * ((7.0 : ℚ) : ℝ))
      100) = 0.896 := by
  have hclamp : max 0 (min (rawWeightedScore sentimentOnlyRecord *
      ((7.0 : ℚ) : ℝ)) 100) = 0.896 := by
    rw [rawWeightedScore_sentimentOnly]
    norm_num [min_def, max_def]
  have hfloor : ⌊(89.6 : ℝ) + 1 / 2⌋ = 90 :=
    Int.floor_eq_iff.mpr (by norm_num)
  have hscore : (calculate_coin_score sentimentOnlyRecord "t").score = 0.9 := by
    rw [score_eq_round_clamp, hclamp]
    unfold roundR
    rw [round_eq]
    have h100 : (0.896 : ℝ) * 10 ^ 2 = 89.6 := by norm_num
    rw [h100, hfloor]
    norm_num
  exact ⟨by rw [hscore, hclamp]; norm_num, hscore, hclamp⟩

/-- C10: calculate_coin_score is deterministic apart from its timestamp
field: on the same cleaned record, two invocations agree on every returned
field except score_calculation_timestamp_utc, which is exactly the
timestamp input; the output depends on nothing but the record and the
timestamp parameter. -/
theorem calculate_coin_score_deterministic (r : CleanedRecord)
    (t1 t2 : String) :
    (calculate_coin_score r t1).score = (calculate_coin_score r t2).score ∧
    (calculate_coin_score r t1).raw_weighted_score =
      (calculate_coin_score r t2).raw_weighted_score ∧
    (calculate_coin_score r t1).mention_multiplier_applied_to_sentiment =
      (calculate_coin_score r t2).mention_multiplier_applied_to_sentiment ∧
    (calculate_coin_score r t1).scaling_factor_applied =
      (calculate_coin_score r t2).scaling_factor_applied ∧
    (calculate_coin_score r t1).mention_analysis =
      (calculate_coin_score r t2).mention_analysis ∧
    (calculate_coin_score r t1).metric_attributions =
      (calculate_coin_score r t2).metric_attributions ∧
    (calculate_coin_score r t1).coingecko_id =
      (calculate_coin_score r t2).coingecko_id ∧
    (calculate_coin_score r t1).symbol = (calculate_coin_score r t2).symbol ∧
    (calculate_coin_score r t1).score_calculation_timestamp_utc = t1 :=
  ⟨rfl, rfl, rfl, rfl, rfl, rfl, rfl, rfl, rfl⟩

theorem keepPost_iff_keepSpec (target : String) (item : JsonItem CPPost) :
    keepPost target item = true ↔ keepSpec target item := by
  cases item with
  | notDict => simp [keepPost, keepSpec]
  | dict post =>
    rcases ht : post.title with _ | t
    · simp [keepPost, keepSpec, ht]
    · rcases hc : post.currencies with _ | curs
      · simp [keepPost, keepSpec, ht, hc]
      · by_cases htrim : pyStrip t = ""
        · simp [keepPost, keepSpec, ht, hc, htrim]
        · constructor
          · intro hkeep
            simp only [keepPost, ht, hc, htrim, if_neg] at hkeep
            obtain ⟨c, hcmem, hcode⟩ := List.any_eq_true.mp hkeep
            cases c with
            | notDict => simp at hcode
            | dict cobj =>
              exact ⟨post, t, curs, cobj, rfl, ht, htrim, hc, hcmem,
                by simpa using hcode⟩
          · rintro ⟨post', t', curs', cobj, heq, ht', htrim', hc', hmem, hcode⟩
            cases heq
            rw [ht] at ht'
            injection ht' with ht''
            subst ht''
            rw [hc] at hc'
            injection hc' with hc''
            subst hc''
            simp only [keepPost, ht, hc, htrim, if_neg]
            exact List.any_eq_true.mpr ⟨.dict cobj, hmem, by simpa using hcode⟩

/-- C9 (amended): when the input carries no upstream error, has a results
list and a matching symbol, the filter keeps exactly the posts that are
dictionaries with a title that is non-blank after stripping whitespace
(rather than merely non-empty, the one amendment the code forces) and whose
explicit currency-tag list includes the uppercased target symbol; an input
that already carries an upstream error is returned unchanged with no
filtering performed. -/
theorem filter_keeps_exactly_tagged_titled (posts_data : PostsData)
    (target : String) :
    (∀ e, posts_data.error = some e →
      filter_cryptopanic_posts posts_data target = .passthrough posts_data) ∧
    (∀ posts original, posts_data.error = none →
      posts_data.results = some posts →
      posts_data.coin_symbol = some original →
      pyUpper original = pyUpper target →
      filter_cryptopanic_posts posts_data target =
        .filtered target (posts.filter (keepPost target)) ∧
      (∀ item, item ∈ posts.filter (keepPost target) ↔
        item ∈ posts ∧ keepSpec target item)) := by
  constructor
  · intro e he
    unfold filter_cryptopanic_posts
    rw [he]
    rfl
  · intro posts original herr hres hsym hupper
    constructor
    · unfold filter_cryptopanic_posts
      rw [herr, hres, hsym]
      simp [hupper]
    · intro item
      rw [List.mem_filter, keepPost_iff_keepSpec]

/-- Witness for C9: on the concrete batch holding one blank-titled
BTC-tagged post and an upstream-error input, the filter behaves as the
amended claim states. -/
theorem filter_keeps_exactly_tagged_titled_witness :
    filter_cryptopanic_posts blankTitlePostsData "BTC" =
      .filtered "BTC"
        ([JsonItem.dict blankTitlePost].filter (keepPost "BTC")) ∧
    filter_cryptopanic_posts ⟨some "boom", none, none⟩ "BTC" =
      .passthrough ⟨some "boom", none, none⟩ :=
  ⟨((filter_keeps_exactly_tagged_titled blankTitlePostsData "BTC").2
      [JsonItem.dict blankTitlePost] "BTC" rfl rfl rfl rfl).1,
   (filter_keeps_exactly_tagged_titled ⟨some "boom", none, none⟩ "BTC").1
     "boom" rfl⟩

/-- C9 counterexample: a post whose title is the nonempty string " " and
whose currency tags include BTC is nevertheless discarded, so the filter
does not keep every post with a non-empty title and a matching tag. -/
theorem filter_discards_blank_nonempty_title :
    filter_cryptopanic_posts blankTitlePostsData "BTC" =
      .filtered "BTC" [] ∧
    blankTitlePost.title = some " " ∧
    (" " : String) ≠ "" ∧
    blankTitlePost.currencies = some [.dict ⟨some "BTC"⟩] ∧
    pyUpper "BTC" = "BTC" := by
  refine ⟨?_, rfl, by decide, rfl, by decide⟩
  decide


theorem postSentiment_bounds {p n : ℤ} (hp : 0 ≤ p) (hn : 0 ≤ n) :
    -1 < ((p : ℚ) - n) / ((p : ℚ) + n + 1) ∧
    ((p : ℚ) - n) / ((p : ℚ) + n + 1) < 1 := by
  have hp' : (0 : ℚ) ≤ (p : ℚ) := by exact_mod_cast hp
  have hn' : (0 : ℚ) ≤ (n : ℚ) := by exact_mod_cast hn
  have hd : (0 : ℚ) < (p : ℚ) + n + 1 := by linarith
  constructor
  · rw [lt_div_iff hd]
    linarith
  · rw [div_lt_one hd]
    linarith

theorem aggregate_on_clean_input (d : FilteredPostsData) (sym : String)
    (posts : List (JsonItem CPPost)) (herr : d.error = none)
    (hsym : d.coin_symbol = some sym) (hres : d.filtered_results = some posts) :
    calculate_aggregate_sentiment_from_posts d =
      .result sym
        (roundRat 4 (if (posts.filterMap postSentiment).isEmpty then 0.0
          else (posts.filterMap postSentiment).sum /
            ((posts.filterMap postSentiment).length : ℚ)))
        posts.length (posts.filterMap postSentiment).length := by
  unfold calculate_aggregate_sentiment_from_posts
  rw [herr, hsym, hres]
  rfl

theorem exampleVotes_sentiments :
    exampleVotesPosts.filterMap postSentiment = [8 / 13, 0, -(7 / 10)] := by
  simp [exampleVotesPosts, postSentiment]
  norm_num

theorem roundRat_neg_example :
    roundRat 4 (((8 : ℚ) / 13 + 0 / 11 + -(7 / 10)) / 3) = -0.0282 := by
  have hv : (((8 : ℚ) / 13 + 0 / 11 + -(7 / 10)) / 3) = -11 / 390 := by
    norm_num
  have hfl : ⌊(-11 : ℚ) / 390 * 10 ^ 4 + 1 / 2⌋ = -282 :=
    Int.floor_eq_iff.mpr (by norm_num)
  rw [hv]
  unfold roundRat
  rw [round_eq, hfl]
  norm_num

/-- C5: the aggregator scores each post whose votes dictionary has a
positive or negative count with at least one nonzero as
(positive - negative) / (positive + negative + 1), a value in (-1, 1); the
returned aggregate is the average over exactly the posts with vote signal
while every post counts toward the processed total; the worked batch with
votes (10,2), (5,5), (1,8) averages to ((8/13)+(0/11)+(-7/10))/3, which is
within 10^-4 of -0.0283 and is returned rounded to 4 decimals as -0.0282;
the empty batch yields aggregate 0.0 with both counts 0. -/
theorem aggregate_sentiment_spec (d : FilteredPostsData) :
    (∀ post : CPPost, ∀ v : CPVotes, post.votes = some (.dict v) →
      0 ≤ v.positive.getD 0 → 0 ≤ v.negative.getD 0 →
      (0 < v.positive.getD 0 ∨ 0 < v.negative.getD 0) →
      postSentiment (.dict post) =
        some (((v.positive.getD 0 : ℚ) - (v.negative.getD 0 : ℚ)) /
          ((v.positive.getD 0 : ℚ) + (v.negative.getD 0 : ℚ) + 1)) ∧
      (-1 : ℚ) < ((v.positive.getD 0 : ℚ) - (v.negative.getD 0 : ℚ)) /
          ((v.positive.getD 0 : ℚ) + (v.negative.getD 0 : ℚ) + 1) ∧
      ((v.positive.getD 0 : ℚ) - (v.negative.getD 0 : ℚ)) /
          ((v.positive.getD 0 : ℚ) + (v.negative.getD 0 : ℚ) + 1) < 1) ∧
    (∀ sym posts, d.error = none → d.coin_symbol = some sym →
      d.filtered_results = some posts →
      calculate_aggregate_sentiment_from_posts d =
        .result sym
          (roundRat 4 (if (posts.filterMap postSentiment).isEmpty then 0.0
            else (posts.filterMap postSentiment).sum /
              ((posts.filterMap postSentiment).length : ℚ)))
          posts.length (posts.filterMap postSentiment).length) ∧
    (calculate_aggregate_sentiment_from_posts exampleFilteredData =
      .result "TESTCOIN1"
        (roundRat 4 (((8 : ℚ) / 13 + 0 / 11 + -(7 / 10)) / 3)) 3 3 ∧
     roundRat 4 (((8 : ℚ) / 13 + 0 / 11 + -(7 / 10)) / 3) = -0.0282 ∧
     |(((8 : ℚ) / 13 + 0 / 11 + -(7 / 10)) / 3) - -0.0283| < 1 / 10 ^ 4) ∧
    calculate_aggregate_sentiment_from_posts emptyFilteredData =
      .result "TESTCOIN3" 0.0 0 0 := by
  refine ⟨?_, ?_, ⟨?_, roundRat_neg_example, by rw [abs_lt]; norm_num⟩, ?_⟩
  · intro post v hv hp hn hpos
    refine ⟨?_, (postSentiment_bounds hp hn).1, (postSentiment_bounds hp hn).2⟩
    simp only [postSentiment, hv]
    rw [if_pos hpos]
  · intro sym posts herr hsym hres
    exact aggregate_on_clean_input d sym posts herr hsym hres
  · have hagg : (if ([8 / 13, 0, -(7 / 10)] : List ℚ).isEmpty then (0.0 : ℚ)
        else ([8 / 13, 0, -(7 / 10)] : List ℚ).sum /
          (([8 / 13, 0, -(7 / 10)] : List ℚ).length : ℚ)) =
        (((8 : ℚ) / 13 + 0 / 11 + -(7 / 10)) / 3) := by
      simp [List.sum_cons]
    rw [aggregate_on_clean_input exampleFilteredData "TESTCOIN1"
      exampleVotesPosts rfl rfl rfl, exampleVotes_sentiments, hagg]
    rfl
  · rw [aggregate_on_clean_input emptyFilteredData "TESTCOIN3" [] rfl rfl rfl]
    have hz : (if (List.filterMap postSentiment ([] : List (JsonItem CPPost))).isEmpty
        then (0.0 : ℚ) else (List.filterMap postSentiment []).sum /
          ((List.filterMap postSentiment []).length : ℚ)) = 0.0 := by
      simp
    rw [hz]
    have h0 : roundRat 4 (0.0 : ℚ) = 0.0 := by
      have hm : (0.0 : ℚ) * 10 ^ 4 = 0 := by norm_num
      unfold roundRat
      rw [hm, round_zero]
      norm_num
    rw [h0]
    rfl

/-- Witness for C5: the per-post score evaluated at the (10, 2) vote pair
and the aggregator evaluated on concrete empty and error-free batches. -/
theorem aggregate_sentiment_spec_witness :
    postSentiment (.dict ⟨some "a", none, some (.dict ⟨some 10, some 2⟩)⟩) =
      some (((10 : ℚ) - 2) / ((10 : ℚ) + 2 + 1)) ∧
    calculate_aggregate_sentiment_from_posts emptyFilteredData =
      .result "TESTCOIN3" 0.0 0 0 := by
  constructor
  · have h := ((aggregate_sentiment_spec emptyFilteredData).1
      ⟨some "a", none, some (.dict ⟨some 10, some 2⟩)⟩ ⟨some 10, some 2⟩
      rfl (by decide) (by decide) (Or.inl (by decide))).1
    simpa using h
  · exact (aggregate_sentiment_spec emptyFilteredData).2.2.2

theorem cleanField_notes_length {α : Type} (name defaultShown : String)
    (default : α) (rv : RawVal α) :
    (cleanField name defaultShown default rv).2.length = rv.defaulted := by
  cases rv <;> rfl

/-- C6 (amended): the cleaning stage never leaves a numeric field null:
each of the twelve numeric fields is the converted raw value when
conversion succeeds and the documented type default (0 or 0.0) otherwise,
with one processing note recorded per defaulted field; in particular the
all-null record cleans to all defaults with exactly twelve notes. The
original claim that no field of a cleaned record is ever null fails for
coingecko_id and for an explicitly null symbol, which are carried over as
null. -/
theorem cleaner_numeric_defaults (raw : RawCoinData) (now : String) :
    (clean_coin_data raw now).notes.length = defaultedFieldCount raw ∧
    ((clean_coin_data allNullRaw now).record.price = 0 ∧
     (clean_coin_data allNullRaw now).record.volume = 0 ∧
     (clean_coin_data allNullRaw now).record.market_cap = 0 ∧
     (clean_coin_data allNullRaw now).record.active_addresses = 0 ∧
     (clean_coin_data allNullRaw now).record.transaction_volume_usd = 0 ∧
     (clean_coin_data allNullRaw now).record.etherscan_active_addresses_proxy
       = 0 ∧
     (clean_coin_data allNullRaw now).record.etherscan_transaction_count_proxy
       = 0 ∧
     (clean_coin_data allNullRaw now).record.etherscan_total_supply_adjusted
       = 0 ∧
     (clean_coin_data allNullRaw now).record.mentions = 0 ∧
     (clean_coin_data allNullRaw now).record.sentiment_score = 0 ∧
     (clean_coin_data allNullRaw now).record.gdelt_sentiment_score = 0 ∧
     (clean_coin_data allNullRaw now).record.gdelt_article_count = 0) ∧
    (clean_coin_data allNullRaw now).notes =
      [.missingOrNone "price" "0.0",
       .missingOrNone "volume" "0.0",
       .missingOrNone "market_cap" "0.0",
       .missingOrNone "active_addresses" "0",
       .missingOrNone "transaction_volume_usd" "0.0",
       .missingOrNone "etherscan_active_addresses_proxy" "0",
       .missingOrNone "etherscan_transaction_count_proxy" "0",
       .missingOrNone "etherscan_total_supply_adjusted" "0.0",
       .missingOrNone "mentions" "0",
       .missingOrNone "sentiment_score" "0.0",
       .missingOrNone "gdelt_sentiment_score" "0.0",
       .missingOrNone "gdelt_article_count" "0"] ∧
    (clean_coin_data allNullRaw now).record.cleaned_at_utc = now := by
  refine ⟨?_, ⟨rfl, rfl, rfl, rfl, rfl, rfl, rfl, rfl, rfl, rfl, rfl, rfl⟩,
    rfl, rfl⟩
  simp only [clean_coin_data, List.length_append, cleanField_notes_length,
    defaultedFieldCount]

/-- C6 counterexample: cleaning the all-null record leaves coingecko_id and
symbol null, so a cleaned record can contain null fields. -/
theorem cleaner_leaves_null_fields :
    (clean_coin_data allNullRaw "t").record.coingecko_id = none ∧
    (clean_coin_data allNullRaw "t").record.symbol = none :=
  ⟨rfl, rfl⟩

/-- C8 (amended): the cleaned symbol is the raw symbol whenever the
"symbol" key is present with a non-null value; the sentinel UNKNOWN is
substituted only when the key is missing; an explicitly null symbol is
carried through as null (the one case the original claim misses); no record
is dropped (cleaning is total) and the scorer passes the stored symbol
through unchanged. -/
theorem symbol_carryover (raw : RawCoinData) (now : String)
    (r : CleanedRecord) (ts : String) :
    (raw.symbol = .missing →
      (clean_coin_data raw now).record.symbol = some "UNKNOWN") ∧
    (∀ s, raw.symbol = .val s →
      (clean_coin_data raw now).record.symbol = some s) ∧
    (raw.symbol = .null → (clean_coin_data raw now).record.symbol = none) ∧
    (calculate_coin_score r ts).symbol = r.symbol := by
  refine ⟨fun h => ?_, fun s h => ?_, fun h => ?_, rfl⟩ <;>
    simp [clean_coin_data, h]

/-- Witness for C8: the three symbol cases evaluated on concrete raw
records. -/
theorem symbol_carryover_witness :
    (clean_coin_data { allNullRaw with symbol := .missing } "t").record.symbol
      = some "UNKNOWN" ∧
    (clean_coin_data { allNullRaw with symbol := .val "BTC" } "t").record.symbol
      = some "BTC" ∧
    (clean_coin_data nullSymbolRaw "t").record.symbol = none :=
  ⟨(symbol_carryover { allNullRaw with symbol := .missing } "t"
      sentimentOnlyRecord "t").1 rfl,
   (symbol_carryover { allNullRaw with symbol := .val "BTC" } "t"
      sentimentOnlyRecord "t").2.1 "BTC" rfl,
   (symbol_carryover nullSymbolRaw "t" sentimentOnlyRecord "t").2.2.1 rfl⟩

/-- C8 counterexample: a raw record whose symbol key holds an explicit null
cleans to a record whose symbol is null, not the sentinel UNKNOWN, so the
cleaned symbol is not always present and non-null. -/
theorem symbol_null_not_unknown :
    nullSymbolRaw.symbol = RawSymbol.null ∧
    (clean_coin_data nullSymbolRaw "t").record.symbol = none ∧
    (clean_coin_data nullSymbolRaw "t").record.symbol ≠ some "UNKNOWN" :=
  ⟨rfl, rfl, by decide⟩


theorem cgLoop_attempts_le (rs : ℕ → CGResponse) (j : ℕ → ℝ) :
    ∀ fuel attempt delays,
      (cgLoop rs j fuel attempt delays).attempts ≤ attempt + fuel := by
  intro fuel
  induction fuel with
  | zero => intro a d; simp [cgLoop]
  | succ n ih =>
    intro a d
    cases h : rs a with
    | ok data =>
      cases data <;> simp [cgLoop, h]
    | httpErr s m =>
      simp only [cgLoop, h]
      split_ifs with h429 hlt
      · exact le_trans (ih (a + 1) _) (by omega)
      · simp only []; omega
      · simp only []; omega
    | connErr m => simp [cgLoop, h]
    | badJson m => simp [cgLoop, h]
    | otherExc m => simp [cgLoop, h]

theorem cgLoop_attempts_ge (rs : ℕ → CGResponse) (j : ℕ → ℝ) :
    ∀ fuel attempt delays, 1 ≤ fuel →
      attempt + 1 ≤ (cgLoop rs j fuel attempt delays).attempts := by
  intro fuel
  induction fuel with
  | zero => intro a d h; omega
  | succ n ih =>
    intro a d _
    cases h : rs a with
    | ok data =>
      cases data <;> simp [cgLoop, h]
    | httpErr s m =>
      simp only [cgLoop, h]
      split_ifs with h429 hlt
      · rcases Nat.eq_zero_or_pos n with rfl | hn
        · simp [cgLoop]
        · exact le_trans (by omega) (ih (a + 1) _ hn)
      · simp only []
        omega
      · simp only []
        omega
    | connErr m => simp [cgLoop, h]
    | badJson m => simp [cgLoop, h]
    | otherExc m => simp [cgLoop, h]

theorem cgLoop_retries_only_429 (rs : ℕ → CGResponse) (j : ℕ → ℝ) :
    ∀ fuel attempt delays k, attempt ≤ k →
      k + 1 < (cgLoop rs j fuel attempt delays).attempts → (rs k).is429 := by
  intro fuel
  induction fuel with
  | zero => intro a d k hak hlt; simp [cgLoop] at hlt; omega
  | succ n ih =>
    intro a d k hak hlt
    cases h : rs a with
    | ok data =>
      rcases data with _ | ⟨e, rest⟩ <;> simp [cgLoop, h] at hlt <;> omega
    | httpErr s m =>
      simp only [cgLoop, h] at hlt
      by_cases h429 : s = 429
      · subst h429
        rw [if_pos rfl] at hlt
        by_cases hlt4 : a < cg_max_retries - 1
        · rw [if_pos hlt4] at hlt
          rcases Nat.eq_or_lt_of_le hak with heq | hlt'
          · subst heq
            simp [CGResponse.is429, h]
          · exact ih (a + 1) _ k hlt' hlt
        · rw [if_neg hlt4] at hlt
          simp only [] at hlt
          omega
      · rw [if_neg h429] at hlt
        simp only [] at hlt
        omega
    | connErr m => simp [cgLoop, h] at hlt; omega
    | badJson m => simp [cgLoop, h] at hlt; omega
    | otherExc m => simp [cgLoop, h] at hlt; omega

theorem gLoop_attempts_le (q : String) (gs : ℕ → GResponse) (j : ℕ → ℝ) :
    ∀ fuel attempt delays,
      (gLoop q gs j fuel attempt delays).attempts ≤ attempt + fuel := by
  intro fuel
  induction fuel with
  | zero => intro a d; simp [gLoop]
  | succ n ih =>
    intro a d
    cases h : gs a with
    | ok arts => simp [gLoop, h]
    | httpErr s m =>
      simp only [gLoop, h]
      split_ifs with h429 hlt
      · exact le_trans (ih (a + 1) _) (by omega)
      · simp only []; omega
      · simp only []; omega
    | connErr m => simp [gLoop, h]
    | badJson m => simp [gLoop, h]
    | otherExc m => simp [gLoop, h]

theorem gLoop_attempts_ge (q : String) (gs : ℕ → GResponse) (j : ℕ → ℝ) :
    ∀ fuel attempt delays, 1 ≤ fuel →
      attempt + 1 ≤ (gLoop q gs j fuel attempt delays).attempts := by
  intro fuel
  induction fuel with
  | zero => intro a d h; omega
  | succ n ih =>
    intro a d _
    cases h : gs a with
    | ok arts => simp [gLoop, h]
    | httpErr s m =>
      simp only [gLoop, h]
      split_ifs with h429 hlt
      · rcases Nat.eq_zero_or_pos n with rfl | hn
        · simp [gLoop]
        · exact le_trans (by omega) (ih (a + 1) _ hn)
      · simp only []
        omega
      · simp only []
        omega
    | connErr m => simp [gLoop, h]
    | badJson m => simp [gLoop, h]
    | otherExc m => simp [gLoop, h]

theorem gLoop_retries_only_429 (q : String) (gs : ℕ → GResponse)
    (j : ℕ → ℝ) :
    ∀ fuel attempt delays k, attempt ≤ k →
      k + 1 < (gLoop q gs j fuel attempt delays).attempts → (gs k).is429 := by
  intro fuel
  induction fuel with
  | zero => intro a d k hak hlt; simp [gLoop] at hlt; omega
  | succ n ih =>
    intro a d k hak hlt
    cases h : gs a with
    | ok arts => simp [gLoop, h] at hlt; omega
    | httpErr s m =>
      simp only [gLoop, h] at hlt
      by_cases h429 : s = 429
      · subst h429
        rw [if_pos rfl] at hlt
        by_cases hlt4 : a < g_max_retries - 1
        · rw [if_pos hlt4] at hlt
          rcases Nat.eq_or_lt_of_le hak with heq | hlt'
          · subst heq
            simp [GResponse.is429, h]
          · exact ih (a + 1) _ k hlt' hlt
        · rw [if_neg hlt4] at hlt
          simp only [] at hlt
          omega
      · rw [if_neg h429] at hlt
        simp only [] at hlt
        omega
    | connErr m => simp [gLoop, h] at hlt; omega
    | badJson m => simp [gLoop, h] at hlt; omega
    | otherExc m => simp [gLoop, h] at hlt; omega

theorem cgResponse_eq_of_is429 :
    ∀ {r : CGResponse}, r.is429 → ∃ m, r = CGResponse.httpErr 429 m
  | .httpErr s m, h => by
    simp only [CGResponse.is429] at h
    exact ⟨m, by rw [h]⟩
  | .ok d, h => absurd h (by simp [CGResponse.is429])
  | .connErr m, h => absurd h (by simp [CGResponse.is429])
  | .badJson m, h => absurd h (by simp [CGResponse.is429])
  | .otherExc m, h => absurd h (by simp [CGResponse.is429])

theorem gResponse_eq_of_is429 :
    ∀ {r : GResponse}, r.is429 → ∃ m, r = GResponse.httpErr 429 m
  | .httpErr s m, h => by
    simp only [GResponse.is429] at h
    exact ⟨m, by rw [h]⟩
  | .ok d, h => absurd h (by simp [GResponse.is429])
  | .connErr m, h => absurd h (by simp [GResponse.is429])
  | .badJson m, h => absurd h (by simp [GResponse.is429])
  | .otherExc m, h => absurd h (by simp [GResponse.is429])

theorem cg_run_four429_then_ok (rs : ℕ → CGResponse) (j : ℕ → ℝ)
    (m0 m1 m2 m3 : String) (e : CGEntry) (rest : List CGEntry)
    (h0 : rs 0 = .httpErr 429 m0) (h1 : rs 1 = .httpErr 429 m1)
    (h2 : rs 2 = .httpErr 429 m2) (h3 : rs 3 = .httpErr 429 m3)
    (h4 : rs 4 = .ok (e :: rest)) :
    fetch_coingecko_market_data rs j =
      ⟨.ok ⟨e.id, e.current_price, e.total_volume, e.market_cap⟩, 5,
        [2 * 2 ^ 0 + j 0, 2 * 2 ^ 1 + j 1, 2 * 2 ^ 2 + j 2,
         2 * 2 ^ 3 + j 3]⟩ := by
  simp [fetch_coingecko_market_data, cgLoop, h0, h1, h2, h3, h4,
    cg_max_retries, cg_base_delay]

theorem cg_run_all429 (rs : ℕ → CGResponse) (j : ℕ → ℝ)
    (m0 m1 m2 m3 m4 : String)
    (h0 : rs 0 = .httpErr 429 m0) (h1 : rs 1 = .httpErr 429 m1)
    (h2 : rs 2 = .httpErr 429 m2) (h3 : rs 3 = .httpErr 429 m3)
    (h4 : rs 4 = .httpErr 429 m4) :
    fetch_coingecko_market_data rs j =
      ⟨.error (.rateLimited m4), 5,
        [2 * 2 ^ 0 + j 0, 2 * 2 ^ 1 + j 1, 2 * 2 ^ 2 + j 2,
         2 * 2 ^ 3 + j 3]⟩ := by
  simp [fetch_coingecko_market_data, cgLoop, h0, h1, h2, h3, h4,
    cg_max_retries, cg_base_delay]

theorem cg_run_first_non429 (rs : ℕ → CGResponse) (j : ℕ → ℝ) (s : ℕ)
    (m : String) (hs : s ≠ 429) (h0 : rs 0 = .httpErr s m) :
    fetch_coingecko_market_data rs j = ⟨.error (.request m), 1, []⟩ := by
  simp [fetch_coingecko_market_data, cgLoop, h0, hs]

theorem g_run_four429_then_ok (q : String) (gs : ℕ → GResponse) (j : ℕ → ℝ)
    (m0 m1 m2 m3 : String) (arts : List (JsonItem GArticleRaw))
    (h0 : gs 0 = .httpErr 429 m0) (h1 : gs 1 = .httpErr 429 m1)
    (h2 : gs 2 = .httpErr 429 m2) (h3 : gs 3 = .httpErr 429 m3)
    (h4 : gs 4 = .ok arts) :
    fetch_gdelt_doc_api_news_sentiment q gs j =
      ⟨.ok (gProcessPayload q arts), 5,
        [1 * 2 ^ 0 + j 0, 1 * 2 ^ 1 + j 1, 1 * 2 ^ 2 + j 2,
         1 * 2 ^ 3 + j 3]⟩ := by
  simp [fetch_gdelt_doc_api_news_sentiment, gLoop, h0, h1, h2, h3, h4,
    g_max_retries, g_base_delay]

theorem g_run_all429 (q : String) (gs : ℕ → GResponse) (j : ℕ → ℝ)
    (m0 m1 m2 m3 m4 : String)
    (h0 : gs 0 = .httpErr 429 m0) (h1 : gs 1 = .httpErr 429 m1)
    (h2 : gs 2 = .httpErr 429 m2) (h3 : gs 3 = .httpErr 429 m3)
    (h4 : gs 4 = .httpErr 429 m4) :
    fetch_gdelt_doc_api_news_sentiment q gs j =
      ⟨.error (.rateLimited m4), 5,
        [1 * 2 ^ 0 + j 0, 1 * 2 ^ 1 + j 1, 1 * 2 ^ 2 + j 2,
         1 * 2 ^ 3 + j 3]⟩ := by
  simp [fetch_gdelt_doc_api_news_sentiment, gLoop, h0, h1, h2, h3, h4,
    g_max_retries, g_base_delay]

theorem g_run_first_non429 (q : String) (gs : ℕ → GResponse) (j : ℕ → ℝ)
    (s : ℕ) (m : String) (hs : s ≠ 429) (h0 : gs 0 = .httpErr s m) :
    fetch_gdelt_doc_api_news_sentiment q gs j =
      ⟨.error (.request m), 1, []⟩ := by
  simp [fetch_gdelt_doc_api_news_sentiment, gLoop, h0, hs]

/-- C4 (amended): every resilient fetch makes at most 5 attempts; only an
HTTP 429 response triggers a retry; the backoff delay slept before attempt
n (zero-indexed, n >= 1) is base_delay * 2 ^ (n - 1) plus the per-attempt
jitter draw — the exponent is the zero-indexed number of the attempt that
just failed, one lower than the base_delay * 2 ^ n of the original claim;
any non-429 HTTP failure on the first attempt returns immediately as a
non-retryable request failure after exactly one attempt and no delay; a
fetch that returns 429 four times and succeeds on the fifth attempt yields
the successful payload; a fetch that returns 429 on all 5 attempts yields a
rate-limit-exhaustion failure distinguishable from the request failure a
500 on the first attempt produces. Stated for both embedded fetchers
(CoinGecko, base_delay 2; GDELT, base_delay 1). -/
theorem retry_policy_bounded_429_only (rs : ℕ → CGResponse)
    (gs : ℕ → GResponse) (j : ℕ → ℝ) (q : String) :
    ((fetch_coingecko_market_data rs j).attempts ≤ 5 ∧
     (fetch_gdelt_doc_api_news_sentiment q gs j).attempts ≤ 5) ∧
    ((∀ k, k + 1 < (fetch_coingecko_market_data rs j).attempts →
        (rs k).is429) ∧
     (∀ k, k + 1 < (fetch_gdelt_doc_api_news_sentiment q gs j).attempts →
        (gs k).is429)) ∧
    ((∀ s m, s ≠ 429 → rs 0 = .httpErr s m →
        fetch_coingecko_market_data rs j = ⟨.error (.request m), 1, []⟩) ∧
     (∀ s m, s ≠ 429 → gs 0 = .httpErr s m →
        fetch_gdelt_doc_api_news_sentiment q gs j =
          ⟨.error (.request m), 1, []⟩)) ∧
    (((∀ i, i < 4 → (rs i).is429) → ∀ e rest, rs 4 = .ok (e :: rest) →
        fetch_coingecko_market_data rs j =
          ⟨.ok ⟨e.id, e.current_price, e.total_volume, e.market_cap⟩, 5,
            [2 * 2 ^ 0 + j 0, 2 * 2 ^ 1 + j 1, 2 * 2 ^ 2 + j 2,
             2 * 2 ^ 3 + j 3]⟩) ∧
     ((∀ i, i < 4 → (gs i).is429) → ∀ arts, gs 4 = .ok arts →
        fetch_gdelt_doc_api_news_sentiment q gs j =
          ⟨.ok (gProcessPayload q arts), 5,
            [1 * 2 ^ 0 + j 0, 1 * 2 ^ 1 + j 1, 1 * 2 ^ 2 + j 2,
             1 * 2 ^ 3 + j 3]⟩)) ∧
    (((∀ i, i < 5 → (rs i).is429) → ∃ m4,
        fetch_coingecko_market_data rs j =
          ⟨.error (.rateLimited m4), 5,
            [2 * 2 ^ 0 + j 0, 2 * 2 ^ 1 + j 1, 2 * 2 ^ 2 + j 2,
             2 * 2 ^ 3 + j 3]⟩ ∧
        ∀ m', CGError.rateLimited m4 ≠ CGError.request m') ∧
     ((∀ i, i < 5 → (gs i).is429) → ∃ m4,
        fetch_gdelt_doc_api_news_sentiment q gs j =
          ⟨.error (.rateLimited m4), 5,
            [1 * 2 ^ 0 + j 0, 1 * 2 ^ 1 + j 1, 1 * 2 ^ 2 + j 2,
             1 * 2 ^ 3 + j 3]⟩ ∧
        ∀ m', GError.rateLimited m4 ≠ GError.request m')) := by
  refine ⟨⟨cgLoop_attempts_le rs j 5 0 [],
    gLoop_attempts_le q gs j 5 0 []⟩,
    ⟨fun k hk => cgLoop_retries_only_429 rs j 5 0 [] k (Nat.zero_le k) hk,
     fun k hk => gLoop_retries_only_429 q gs j 5 0 [] k (Nat.zero_le k) hk⟩,
    ⟨fun s m hs h0 => cg_run_first_non429 rs j s m hs h0,
     fun s m hs h0 => g_run_first_non429 q gs j s m hs h0⟩, ⟨?_, ?_⟩,
    ⟨?_, ?_⟩⟩
  · intro h429 e rest h4
    obtain ⟨m0, e0⟩ := cgResponse_eq_of_is429 (h429 0 (by omega))
    obtain ⟨m1, e1⟩ := cgResponse_eq_of_is429 (h429 1 (by omega))
    obtain ⟨m2, e2⟩ := cgResponse_eq_of_is429 (h429 2 (by omega))
    obtain ⟨m3, e3⟩ := cgResponse_eq_of_is429 (h429 3 (by omega))
    exact cg_run_four429_then_ok rs j m0 m1 m2 m3 e rest e0 e1 e2 e3 h4
  · intro h429 arts h4
    obtain ⟨m0, e0⟩ := gResponse_eq_of_is429 (h429 0 (by omega))
    obtain ⟨m1, e1⟩ := gResponse_eq_of_is429 (h429 1 (by omega))
    obtain ⟨m2, e2⟩ := gResponse_eq_of_is429 (h429 2 (by omega))
    obtain ⟨m3, e3⟩ := gResponse_eq_of_is429 (h429 3 (by omega))
    exact g_run_four429_then_ok q gs j m0 m1 m2 m3 arts e0 e1 e2 e3 h4
  · intro h429
    obtain ⟨m0, e0⟩ := cgResponse_eq_of_is429 (h429 0 (by omega))
    obtain ⟨m1, e1⟩ := cgResponse_eq_of_is429 (h429 1 (by omega))
    obtain ⟨m2, e2⟩ := cgResponse_eq_of_is429 (h429 2 (by omega))
    obtain ⟨m3, e3⟩ := cgResponse_eq_of_is429 (h429 3 (by omega))
    obtain ⟨m4, e4⟩ := cgResponse_eq_of_is429 (h429 4 (by omega))
    exact ⟨m4, cg_run_all429 rs j m0 m1 m2 m3 m4 e0 e1 e2 e3 e4,
      fun m' => by simp⟩
  · intro h429
    obtain ⟨m0, e0⟩ := gResponse_eq_of_is429 (h429 0 (by omega))
    obtain ⟨m1, e1⟩ := gResponse_eq_of_is429 (h429 1 (by omega))
    obtain ⟨m2, e2⟩ := gResponse_eq_of_is429 (h429 2 (by omega))
    obtain ⟨m3, e3⟩ := gResponse_eq_of_is429 (h429 3 (by omega))
    obtain ⟨m4, e4⟩ := gResponse_eq_of_is429 (h429 4 (by omega))
    exact ⟨m4, g_run_all429 q gs j m0 m1 m2 m3 m4 e0 e1 e2 e3 e4,
      fun m' => by simp⟩

/-- Witness for C4: the retry policy evaluated on concrete runs: four 429s
then success yields the payload after 5 attempts with delays 2, 4, 8, 16
(zero jitter), and a 500 on the first attempt fails at once. -/
theorem retry_policy_bounded_429_only_witness :
    fetch_coingecko_market_data cgFourThenOk zeroJitter =
      ⟨.ok ⟨some "bitcoin", some 60000, some 1000, some 5000⟩, 5,
        [2 * 2 ^ 0 + zeroJitter 0, 2 * 2 ^ 1 + zeroJitter 1,
         2 * 2 ^ 2 + zeroJitter 2, 2 * 2 ^ 3 + zeroJitter 3]⟩ ∧
    fetch_coingecko_market_data cgFirst500 zeroJitter =
      ⟨.error (.request "server error"), 1, []⟩ := by
  constructor
  · exact (retry_policy_bounded_429_only cgFourThenOk all429G zeroJitter
      "q").2.2.2.1.1
      (fun i hi => by simp [cgFourThenOk, CGResponse.is429, hi])
      ⟨some "bitcoin", some 60000, some 1000, some 5000⟩ [] rfl
  · exact (retry_policy_bounded_429_only cgFirst500 all429G zeroJitter
      "q").2.2.1.1 500 "server error" (by decide) rfl

/-- C4 counterexample: with HTTP 429 on every attempt and zero jitter, the
CoinGecko fetch (base_delay 2) sleeps delays 2, 4, 8, 16: the delay before
attempt 1 (zero-indexed) is base_delay * 2 ^ 0 + jitter = 2, not the
base_delay * 2 ^ 1 + jitter = 4 that the claim formula gives. -/
theorem backoff_exponent_off_by_one :
    (fetch_coingecko_market_data all429CG zeroJitter).delays =
      [2, 4, 8, 16] ∧
    (fetch_coingecko_market_data all429CG zeroJitter).delays.head? =
      some 2 ∧
    (2 : ℝ) ≠ 2 * 2 ^ 1 + zeroJitter 0 := by
  have h := cg_run_all429 all429CG zeroJitter "rate limited" "rate limited"
    "rate limited" "rate limited" "rate limited" rfl rfl rfl rfl rfl
  rw [h]
  norm_num [zeroJitter]

/-- C7: a resilient fetch call never raises: for every sequence of upstream
responses (success, HTTP error of any status, connection failure, malformed
JSON, any other exception) and every jitter draw, the run terminates within
1 to 5 attempts and its outcome is a typed value that is either a success
payload or a typed failure, for both embedded fetchers. -/
theorem fetch_always_typed_outcome (rs : ℕ → CGResponse)
    (gs : ℕ → GResponse) (j : ℕ → ℝ) (q : String) :
    ((∃ p, (fetch_coingecko_market_data rs j).outcome = .ok p) ∨
     (∃ err, (fetch_coingecko_market_data rs j).outcome = .error err)) ∧
    1 ≤ (fetch_coingecko_market_data rs j).attempts ∧
    (fetch_coingecko_market_data rs j).attempts ≤ 5 ∧
    ((∃ p, (fetch_gdelt_doc_api_news_sentiment q gs j).outcome = .ok p) ∨
     (∃ err, (fetch_gdelt_doc_api_news_sentiment q gs j).outcome =
        .error err)) ∧
    1 ≤ (fetch_gdelt_doc_api_news_sentiment q gs j).attempts ∧
    (fetch_gdelt_doc_api_news_sentiment q gs j).attempts ≤ 5 := by
  refine ⟨?_, cgLoop_attempts_ge rs j 5 0 [] (by omega),
    cgLoop_attempts_le rs j 5 0 [], ?_,
    gLoop_attempts_ge q gs j 5 0 [] (by omega),
    gLoop_attempts_le q gs j 5 0 []⟩
  · cases h : (fetch_coingecko_market_data rs j).outcome with
    | error e => exact Or.inr ⟨e, rfl⟩
    | ok p => exact Or.inl ⟨p, rfl⟩
  · cases h : (fetch_gdelt_doc_api_news_sentiment q gs j).outcome with
    | error e => exact Or.inr ⟨e, rfl⟩
    | ok p => exact Or.inl ⟨p, rfl⟩
